import Mathlib

/-!
Shallow embedding of the analysis-aggregation core of the GoHz `analize` tool.

The program orchestrates external measurement tools (ffmpeg/ffprobe/aubio),
merges their partially-available outputs into one `Analysis` record, derives
secondary metrics, segments audio on silence, and diffs two analyses.

Modelling conventions:
* Go `float64` values are modelled as exact rationals `ℚ` (the program does no
  in-process DSP; all arithmetic on probe outputs is elementary).  The two
  places where the source computes a transcendental function
  (`math.Sqrt` in `stddev`, `math.Log2` in `hzToMIDI`) are modelled in `ℝ`.
* Go nullable pointers (`*float64`, `*int64`, `*TempoStats`, ...) are `Option`.
* Go `map[string]float64` is modelled as an association list together with the
  lookup function `mapLookup`; a Go map is an unordered key→value mapping, so
  only the mapping realised by `mapLookup` is significant, not the entry order.
* The external tools themselves (process spawning and regex parsing of their
  text output) are out of scope per the spec; each probe's *parsed outcome* is
  an input to the embedded aggregation (`ProbeResults`).  Everything after
  parsing — the tolerant-degradation policy, derivations, note generation,
  segmentation and diffing — is translated statement by statement from the Go
  source (`src/unnamed/part_001`/`part_003`, `src/analize/*.go`).
-/

namespace GoHz

/-- Frequency band `[Lo, Hi]` in Hz.  Source: `type Bandspec struct{ Lo, Hi float64 }`. -/
structure Bandspec where
  Lo : ℚ
  Hi : ℚ
  deriving DecidableEq

/-- Source: `type ProbeInfo struct` (format/duration/rate/channels/bitrate/bitdepth). -/
structure ProbeInfo where
  FormatName : String
  Duration : ℚ
  SampleRate : ℤ
  Channels : ℤ
  BitRate : ℤ
  BitDepth : ℤ
  deriving DecidableEq

/-- Source: `type LevelStats struct`.  Nullable fields are `Option`. -/
structure LevelStats where
  PeakDB : ℚ
  RMSDB : ℚ
  CrestDB : ℚ
  TruePeakDBTP : Option ℚ
  HeadroomDB : ℚ
  DCOffset : ℚ
  ZeroXRate : ℚ
  NoiseFloor : ℚ
  ClipSamples : Option ℤ
  ClipPercent : Option ℚ
  deriving DecidableEq

/-- Source: `type LUFS struct { Integrated, Range float64; TruePeak *float64 }`. -/
structure LUFS where
  Integrated : ℚ
  Range : ℚ
  TruePeak : Option ℚ
  deriving DecidableEq

/-- Source: `type BandStat struct { Band Bandspec; PeakDB, RMSDB float64 }`. -/
structure BandStat where
  Band : Bandspec
  PeakDB : ℚ
  RMSDB : ℚ
  deriving DecidableEq

/-- Source: `type StereoStats struct`. -/
structure StereoStats where
  MidRMS : ℚ
  SideRMS : ℚ
  SideMidRatioDB : ℚ
  Correlation : Option ℚ
  deriving DecidableEq

/-- Source: `type SpectralStats struct` (every field independently nullable). -/
structure SpectralStats where
  Centroid : Option ℚ
  Rolloff95 : Option ℚ
  Flatness : Option ℚ
  Spread : Option ℚ
  Skewness : Option ℚ
  Kurtosis : Option ℚ
  deriving DecidableEq

/-- Source: `type TempoStats struct`.  `BPMStd` stores the result of
`math.Sqrt`, hence lives in `ℝ` in this embedding. -/
structure TempoStats where
  BPMMedian : Option ℚ
  BPMMean : Option ℚ
  BPMStd : Option ℝ
  Events : ℤ
  OnsetPerMin : Option ℚ

/-- Source: `type PitchStats struct`.  `MIDIMedian` stores the result of
`math.Log2`-based `hzToMIDI`, hence lives in `ℝ`. -/
structure PitchStats where
  HzMedian : Option ℚ
  HzMean : Option ℚ
  HzMin : Option ℚ
  HzMax : Option ℚ
  MIDIMedian : Option ℝ
  Note : Option String

/-- Source: `type KeyInfo struct { Key, Scale *string; Conf *float64 }`. -/
structure KeyInfo where
  Key : Option String
  Scale : Option String
  Conf : Option ℚ
  deriving DecidableEq

/-- Source: `type SilenceSpan struct { Start, End float64 }`. -/
structure SilenceSpan where
  Start : ℚ
  End : ℚ
  deriving DecidableEq

/-- Diagnostic note messages appended by `analyzeFile`.  Each constructor is one
of the four `fmt.Sprintf`/literal strings of the source, carrying the numeric
data interpolated into it (`clippingDetected` carries the `derefFloat` argument
as an `Option`: `none` models the `NaN` printed when `ClipPercent` is nil). -/
inductive NoteMsg where
  | clippingDetected (samples : ℤ) (percent : Option ℚ)
  | truePeakHigh (tp : ℚ)
  | noiseLike
  | lowCorrelation
  deriving DecidableEq

/-- Source: `type Analysis struct` (the part_003 variant, which carries both
`SilenceRatio` and `SilenceTotal`).  `File`/`When` are environment-supplied
strings (input path, wall-clock timestamp) that carry no analysed data. -/
structure Analysis where
  File : String
  When : String
  Probe : ProbeInfo
  Level : LevelStats
  Loudness : Option LUFS
  Stereo : StereoStats
  Spectral : SpectralStats
  Bands : List BandStat
  Tempo : Option TempoStats
  Pitch : Option PitchStats
  Key : Option KeyInfo
  Silence : List SilenceSpan
  SilenceRatio : Option ℚ
  SilenceTotal : Option ℚ
  /-- Source field `Notes []string`; each diagnostic string is represented
  structurally by `NoteMsg` (constructor + interpolated data) rather than by
  its rendered text. -/
  Notes : List NoteMsg

/-- Configuration fields consumed by `analyzeFile` (source: `type Config struct`;
the binary paths and tuning knobs only shape the external command lines, which
are out of scope). -/
structure Config where
  UseEBUR128 : Bool
  UseBands : Bool
  Bands : List Bandspec
  BPMEngine : String

/-- Association-list model of the Go `map[string]float64` returned by the astats
probe, plus lookups used by `analyzeFile`. -/
def mapLookup (m : List (String × ℚ)) (k : String) : Option ℚ :=
  (m.find? (fun p => p.1 == k)).map (fun p => p.2)

/-- Go `strings.ToLower`, as applied to the engine-name configuration strings
(which are ASCII, where Go's Unicode lowering and `Char.toLower` agree). -/
def strToLower (s : String) : String := ⟨s.data.map Char.toLower⟩

/-- Go's `int64(v)` conversion from `float64` truncates toward zero. -/
def truncQ (v : ℚ) : ℤ :=
  if 0 ≤ v then ⌊v⌋ else ⌈v⌉

/-- Source: `func mean(xs []float64) float64`.  On an empty list Go returns
`NaN`; this embedding returns `0` there (division by zero in `ℚ`), and every
caller in the source guards against the empty list before using the value. -/
def mean (xs : List ℚ) : ℚ :=
  xs.sum / (xs.length : ℚ)

/-- Source: `func stddev(xs []float64, m float64) float64`: `0` below two
samples, otherwise the Bessel-corrected sample standard deviation. -/
noncomputable def stddev (xs : List ℚ) (m : ℚ) : ℝ :=
  if xs.length < 2 then 0
  else Real.sqrt ((((xs.map (fun v => (v - m) * (v - m))).sum : ℚ) : ℝ) /
    ((xs.length - 1 : ℕ) : ℝ))

/-- Source: `func hzToMIDI(hz float64) float64 { return 69 + 12*math.Log2(hz/440.0) }`. -/
noncomputable def hzToMIDI (hz : ℚ) : ℝ :=
  69 + 12 * Real.logb 2 ((hz : ℝ) / 440)

/-- Go's `math.Round`: round half away from zero. -/
noncomputable def goRound (x : ℝ) : ℤ :=
  if 0 ≤ x then ⌊x + 1 / 2⌋ else ⌈x - 1 / 2⌉

/-- Note-name table of `midiToNoteName` (source order). -/
def noteTable : List String :=
  "C" :: "C#" :: "D" :: "D#" :: "E" :: "F" ::
    "F#" :: "G" :: "G#" :: "A" :: "A#" :: "B" :: []

/-- Source: `func midiToNoteName(m int) string`: index `(m + 1200) % 12` into
`noteTable` and octave `(m / 12) - 1`, using Go's truncating `%` and `/`
(`Int.tmod` / `Int.tdiv`).  For `m < -1200` the Go code would panic on a
negative slice index; `getD ""` stands in for that unreachable-in-practice
panic (it would require a parsed pitch below `2^-100` Hz). -/
def midiToNoteName (m : ℤ) : String :=
  noteTable.getD ((m + 1200).tmod 12).toNat "" ++ toString (m.tdiv 12 - 1)

/-- Modelled from the spec's words, for comparison with `midiToNoteName`:
"rounding MIDI to nearest integer and mapping modulo 12 to
{C,C#,D,D#,E,F,F#,G,G#,A,A#,B}, octave = floor(midi/12) − 1".  Mathematical
`mod` (`Int.emod`) and `floor` division (`Int.fdiv`). -/
def specNoteName (m : ℤ) : String :=
  noteTable.getD (m % 12).toNat "" ++ toString (m.fdiv 12 - 1)

/-- Parsed-probe outcomes fed into one aggregation pass.  Each field is the
result of one external invocation after its (out-of-scope) text parsing:
`none` models the probe-level failure that the aggregator swallows. -/
structure ProbeResults where
  /-- `ffmpegVolumedetect`: `(peakDB, rmsDB)`, `none` = parse failed (Go then
  uses the zero values returned alongside the error). -/
  volumedetect : Option (ℚ × ℚ)
  /-- `ffmpegAstatsOverall`: parsed "Overall key: value" pairs (empty on failure,
  exactly as the Go callers keep the possibly-empty map and ignore the error). -/
  astats : List (String × ℚ)
  /-- `ffmpegEBUR128`: `none` = no integrated loudness parsed (error path). -/
  ebur128 : Option LUFS
  /-- `ffmpegSpectral` never returns an error: each field independently optional. -/
  spectral : SpectralStats
  /-- `ffmpegStereoStuff` never returns an error. -/
  stereo : StereoStats
  /-- `ffmpegBandLoudness` per band: `none` = that band's parse failed. -/
  bandProbe : Bandspec → Option (ℚ × ℚ)
  /-- `detectSilences`: parsed spans (possibly empty). -/
  silences : List SilenceSpan
  /-- `aubio tempo` parsed bpm values; `none` = aubio missing or command failed
  with empty output (the pre-parse error paths of `aubioBPMSeries`). -/
  tempoParsed : Option (List ℚ)
  /-- `aubio onset`: number of parsed onset lines. -/
  onsetCount : ℤ
  /-- `aubio pitch` parsed candidate values; `none` = aubio missing
  (`aubioPitchStats` error path). -/
  pitchParsed : Option (List ℚ)
  /-- `aubio key`: whether the aubio binary was found (`aubioKey` errors only
  on `mustHave`). -/
  keyAvail : Bool
  /-- Key letter token recognised by `aubioKey` (already upper-cased). -/
  keyTok : Option String
  /-- Scale token recognised by `aubioKey`. -/
  scaleTok : Option String
  /-- Confidence value recognised by `aubioKey`. -/
  confTok : Option ℚ

/-- Source: tail of `aubioBPMSeries`: `if len(vals)==0 { return nil, err }`. -/
def aubioBPMSeries (parsed : Option (List ℚ)) : Option (List ℚ) :=
  parsed.bind (fun vals => if vals = [] then none else some vals)

/-- Source: `func aubioOnsetRate`: `(rate, count)` with the rate absent when
`durSec <= 0`, else `count / (durSec/60)`. -/
def aubioOnsetRate (count : ℤ) (durSec : ℚ) : Option ℚ × ℤ :=
  if durSec ≤ 0 then (none, count)
  else (some ((count : ℚ) / (durSec / 60)), count)

/-- Source: body of `aubioPitchStats` after line parsing: keep positive values,
return an all-absent record when none remain, otherwise sort ascending
(`sort.Float64s`) and derive median/mean/min/max/MIDI/note. -/
noncomputable def aubioPitchStatsCore (cand : List ℚ) : PitchStats :=
  let Hz := cand.filter (fun v => 0 < v)
  if Hz = [] then
    { HzMedian := none, HzMean := none, HzMin := none, HzMax := none,
      MIDIMedian := none, Note := none }
  else
    let sorted := List.insertionSort (fun a b => a ≤ b) Hz
    let med := sorted.getD (sorted.length / 2) 0
    let mu := mean sorted
    let minv := sorted.getD 0 0
    let maxv := sorted.getD (sorted.length - 1) 0
    let midi := hzToMIDI med
    { HzMedian := some med, HzMean := some mu, HzMin := some minv,
      HzMax := some maxv, MIDIMedian := some midi,
      Note := some (midiToNoteName (goRound midi)) }

/-- Source: tail of `aubioKey`: with aubio present it always succeeds, returning
an empty (but present) `KeyInfo` when no token at all was recognised; it fails
(hence the aggregator leaves `Key` nil) only when aubio is missing. -/
def aubioKey (avail : Bool) (k s : Option String) (c : Option ℚ) : Option KeyInfo :=
  if avail then
    if k = none ∧ s = none ∧ c = none then some ⟨none, none, none⟩
    else some ⟨k, s, c⟩
  else none

/-- Source: the note-generation block of `analyzeFile` ("hints"): four fixed
threshold rules in program order, each skipped when its field is nil. -/
def mkNotes (lv : LevelStats) (spec : SpectralStats) (st : StereoStats) :
    List NoteMsg :=
  (match lv.ClipSamples with
   | some c => if 0 < c then [NoteMsg.clippingDetected c lv.ClipPercent] else []
   | none => []) ++
  (match lv.TruePeakDBTP with
   | some tp => if -1 < tp then [NoteMsg.truePeakHigh tp] else []
   | none => []) ++
  (match spec.Flatness with
   | some f => if 1 / 2 < f then [NoteMsg.noiseLike] else []
   | none => []) ++
  (match st.Correlation with
   | some corr => if corr < 1 / 5 then [NoteMsg.lowCorrelation] else []
   | none => [])

/-- Source: `func analyzeFile(cfg *Config, in string) (*Analysis, error)`,
part_003 variant, after the mandatory `ffprobeInfo` succeeded with `probe`.
All optional probes are attempted independently; a failing probe leaves its
field absent.  Derivations (crest, headroom, clip percentage, true-peak
backfill, silence total/ratio) follow the source line by line. -/
noncomputable def analyzeFile (cfg : Config) (probe : ProbeInfo)
    (pr : ProbeResults) : Analysis :=
  let peak := (pr.volumedetect.getD (0, 0)).1
  let rms := (pr.volumedetect.getD (0, 0)).2
  let m := pr.astats
  let clipSamples : Option ℤ :=
    (mapLookup m "number_of_clipped_samples").map truncQ
  let clipPercent : Option ℚ :=
    match mapLookup m "number_of_clipped_samples" with
    | some v =>
        if 0 < probe.Duration ∧ 0 < probe.SampleRate ∧ 0 < probe.Channels then
          some (100 * ((truncQ v : ℤ) : ℚ) /
            (probe.Duration * ((probe.SampleRate * probe.Channels : ℤ) : ℚ)))
        else none
    | none => none
  let lufs : Option LUFS := if cfg.UseEBUR128 then pr.ebur128 else none
  let lv : LevelStats :=
    { PeakDB := peak, RMSDB := rms, CrestDB := peak - rms,
      TruePeakDBTP := lufs.bind (fun l => l.TruePeak),
      HeadroomDB := 0 - peak,
      DCOffset := (mapLookup m "dc_offset").getD 0,
      ZeroXRate := (mapLookup m "zero_crossings_rate").getD 0,
      NoiseFloor := (mapLookup m "noise_floor").getD 0,
      ClipSamples := clipSamples, ClipPercent := clipPercent }
  let spec := pr.spectral
  let st := pr.stereo
  let bands : List BandStat :=
    if cfg.UseBands then
      cfg.Bands.filterMap
        (fun b => (pr.bandProbe b).map (fun q => ⟨b, q.1, q.2⟩))
    else []
  let sil := pr.silences
  let silTotal : Option ℚ :=
    if sil = [] then none
    else some ((sil.map (fun sp => sp.End - sp.Start)).sum)
  let silRatio : Option ℚ :=
    match silTotal with
    | some dur => if 0 < probe.Duration then some (dur / probe.Duration) else none
    | none => none
  let tempo : Option TempoStats :=
    if strToLower cfg.BPMEngine == "aubio" then
      match aubioBPMSeries pr.tempoParsed with
      | some series =>
          let med := series.getD (series.length / 2) 0
          let mu := mean series
          let sd := stddev series mu
          let onr := aubioOnsetRate pr.onsetCount probe.Duration
          some { BPMMedian := some med, BPMMean := some mu, BPMStd := some sd,
                 Events := onr.2, OnsetPerMin := onr.1 }
      | none => none
    else none
  let ps : Option PitchStats := pr.pitchParsed.map aubioPitchStatsCore
  let key : Option KeyInfo := aubioKey pr.keyAvail pr.keyTok pr.scaleTok pr.confTok
  { File := "", When := "",
    Probe := probe, Level := lv, Loudness := lufs, Stereo := st, Spectral := spec,
    Bands := bands, Tempo := tempo, Pitch := ps, Key := key,
    Silence := sil, SilenceRatio := silRatio, SilenceTotal := silTotal,
    Notes := mkNotes lv spec st }

/-- One playable segment.  Source: `type segment struct{ start, end float64 }`
(`stop` stands for the Go field `end`, a Lean keyword). -/
structure Seg where
  start : ℚ
  stop : ℚ
  deriving DecidableEq

/-- Source: the clamp-trim step inside the `splitBySilence` output loop:
`s = math.Min(e, s+trim); e = math.Max(s, e-trim)`, applied only when
`trim > 0`. -/
def trimSeg (trim : ℚ) (sg : Seg) : Seg :=
  if 0 < trim then
    let s := min sg.stop (sg.start + trim)
    ⟨s, max s (sg.stop - trim)⟩
  else sg

/-- Source: `func splitBySilence` (src/analize/silence_split.go), restricted to
its core contract: the ordered `(start, end)` list.  Spans whose length reaches
`minSilDur` cut the timeline; a trailing segment covers `[cursor, dur)`; a
result of at most one segment means nothing to split (`nil`); each emitted
segment is clamp-trimmed by `trim`.  File naming and the per-segment ffmpeg cut
are external-collaborator concerns. -/
def splitBySilence (spans : List SilenceSpan) (dur minSilDur trim : ℚ) :
    List Seg :=
  let step := spans.foldl
    (fun (acc : List Seg × ℚ) s =>
      if minSilDur ≤ s.End - s.Start then (acc.1 ++ [⟨acc.2, s.Start⟩], s.End)
      else acc)
    ([], 0)
  let segs := if step.2 < dur then step.1 ++ [⟨step.2, dur⟩] else step.1
  if segs.length ≤ 1 then []
  else segs.map (trimSeg trim)

/-- Source: `type Diff struct { A, B *Analysis; Delta map[string]float64 }`.
`Delta` is an unordered Go map; it is realised here as an association list read
through `mapLookup`. -/
structure Diff where
  A : Analysis
  B : Analysis
  Delta : List (String × ℚ)

/-- Source: `func compare(a, b *Analysis) *Diff`: unconditional deltas for
peak/rms/crest/stereo/duration, loudness deltas only when both analyses carry
`Loudness`, `bpm_median` only when both carry a `TempoStats` with a median.
The Go map is unordered, so the unconditional entries are listed first. -/
def compare (a b : Analysis) : Diff :=
  let base : List (String × ℚ) :=
    [("peak_db", b.Level.PeakDB - a.Level.PeakDB),
     ("rms_db", b.Level.RMSDB - a.Level.RMSDB),
     ("crest_db", b.Level.CrestDB - a.Level.CrestDB),
     ("stereo_side_mid_db", b.Stereo.SideMidRatioDB - a.Stereo.SideMidRatioDB),
     ("duration_s", b.Probe.Duration - a.Probe.Duration)]
  let lufsPart : List (String × ℚ) :=
    match a.Loudness, b.Loudness with
    | some la, some lb =>
        [("lufs_integrated", lb.Integrated - la.Integrated),
         ("lufs_range", lb.Range - la.Range)]
    | _, _ => []
  let bpmPart : List (String × ℚ) :=
    match a.Tempo, b.Tempo with
    | some ta, some tb =>
        match ta.BPMMedian, tb.BPMMedian with
        | some ma, some mb => [("bpm_median", mb - ma)]
        | _, _ => []
    | _, _ => []
  { A := a, B := b, Delta := base ++ lufsPart ++ bpmPart }

/-! Concrete fixtures used by the witness theorems below. -/

/-- Minimal configuration: every optional engine disabled. -/
def baseConfig : Config :=
  { UseEBUR128 := false, UseBands := false, Bands := [], BPMEngine := "none" }

/-- Minimal probe info (all zero values, as ffprobe absence-of-field yields). -/
def basePI : ProbeInfo :=
  { FormatName := "wav", Duration := 0, SampleRate := 0, Channels := 0,
    BitRate := 0, BitDepth := 0 }

/-- Minimal probe results: every optional probe failed / recognised nothing. -/
def basePR : ProbeResults :=
  { volumedetect := none, astats := [], ebur128 := none,
    spectral := ⟨none, none, none, none, none, none⟩,
    stereo := ⟨0, 0, 0, none⟩, bandProbe := fun _ => none, silences := [],
    tempoParsed := none, onsetCount := 0, pitchParsed := none,
    keyAvail := false, keyTok := none, scaleTok := none, confTok := none }

/-- Minimal analysis record used to build concrete diff inputs. -/
def baseAnalysis : Analysis :=
  { File := "", When := "", Probe := basePI,
    Level := ⟨0, 0, 0, none, 0, 0, 0, 0, none, none⟩,
    Loudness := none, Stereo := ⟨0, 0, 0, none⟩,
    Spectral := ⟨none, none, none, none, none, none⟩,
    Bands := [], Tempo := none, Pitch := none, Key := none,
    Silence := [], SilenceRatio := none, SilenceTotal := none, Notes := [] }

/-! Claim theorems. -/

/-- C1: for every analysis produced by `analyzeFile`, given the peak and RMS
values obtained from the level probe, the stored peak and RMS are those values,
the derived crest factor equals peak − RMS and the derived headroom equals
0 − peak, exactly. -/
theorem c1_crest_headroom (cfg : Config) (info : ProbeInfo) (pr : ProbeResults)
    (p r : ℚ) (h : pr.volumedetect = some (p, r)) :
    (analyzeFile cfg info pr).Level.PeakDB = p ∧
    (analyzeFile cfg info pr).Level.RMSDB = r ∧
    (analyzeFile cfg info pr).Level.CrestDB = p - r ∧
    (analyzeFile cfg info pr).Level.HeadroomDB = 0 - p := by
  simp [analyzeFile, h]

/-- Probe results in which the level probe reported peak −1 dBFS, RMS −20 dBFS. -/
def prW1 : ProbeResults := { basePR with volumedetect := some (-1, -20) }

/-- Witness for C1 at a concrete level-probe outcome. -/
theorem c1_witness :
    (analyzeFile baseConfig basePI prW1).Level.PeakDB = -1 ∧
    (analyzeFile baseConfig basePI prW1).Level.RMSDB = -20 ∧
    (analyzeFile baseConfig basePI prW1).Level.CrestDB = -1 - (-20) ∧
    (analyzeFile baseConfig basePI prW1).Level.HeadroomDB = 0 - (-1) :=
  c1_crest_headroom baseConfig basePI prW1 (-1) (-20) rfl

/-- C4 counterexample: with minimum silence duration 1, the span (10, 10.5)
has length 0.5 < 1 and does not qualify as a cut, so the segmenter does not
produce the claimed list [(0,2),(4,10),(10.5,20)]. -/
theorem c4_counterexample :
    splitBySilence [⟨2, 4⟩, ⟨10, 21 / 2⟩] 20 1 0 ≠
      [⟨0, 2⟩, ⟨4, 10⟩, ⟨21 / 2, 20⟩] := by
  norm_num [splitBySilence, trimSeg]

/-- C4 amended: over duration 20 with minimum silence duration 1, only the
span (2,4) qualifies (length 2 ≥ 1; the span (10,10.5) has length 0.5 < 1), so
the segments are [(0,2),(4,20)]; with trim = 0.5 each segment shrinks by 0.5
at both ends, giving [(0.5,1.5),(4.5,19.5)], and no segment inverts. -/
theorem c4_amended :
    splitBySilence [⟨2, 4⟩, ⟨10, 21 / 2⟩] 20 1 0 = [⟨0, 2⟩, ⟨4, 20⟩] ∧
    splitBySilence [⟨2, 4⟩, ⟨10, 21 / 2⟩] 20 1 (1 / 2) =
      [⟨1 / 2, 3 / 2⟩, ⟨9 / 2, 39 / 2⟩] := by
  norm_num [splitBySilence, trimSeg]

/-- C5: for every segment with start ≤ end and every trim value > 0, the
clamp-trim step (new start = min(end, start+trim), new end = max(new start,
end−trim)) yields new start ≤ new end: trimming never produces a
negative-length segment. -/
theorem c5_trim_no_invert (s e t : ℚ) (_hse : s ≤ e) (ht : 0 < t) :
    (trimSeg t ⟨s, e⟩).start ≤ (trimSeg t ⟨s, e⟩).stop := by
  simp only [trimSeg, if_pos ht]
  exact le_max_left _ _

/-- Witness for C5 at the segment (0, 2) with trim 1/2. -/
theorem c5_witness :
    (trimSeg (1 / 2) ⟨0, 2⟩).start ≤ (trimSeg (1 / 2) ⟨0, 2⟩).stop :=
  c5_trim_no_invert 0 2 (1 / 2) (by norm_num) (by norm_num)

/-- C2: the clipped-sample percentage is present iff the clipped-sample count
is present and duration, sample rate and channel count are all positive; when
present its value equals 100·count/(duration·sampleRate·channels). -/
theorem c2_clip_percent (cfg : Config) (info : ProbeInfo) (pr : ProbeResults) :
    ((analyzeFile cfg info pr).Level.ClipPercent.isSome ↔
      (analyzeFile cfg info pr).Level.ClipSamples.isSome ∧
      0 < (analyzeFile cfg info pr).Probe.Duration ∧
      0 < (analyzeFile cfg info pr).Probe.SampleRate ∧
      0 < (analyzeFile cfg info pr).Probe.Channels) ∧
    (∀ p c, (analyzeFile cfg info pr).Level.ClipPercent = some p →
      (analyzeFile cfg info pr).Level.ClipSamples = some c →
      p = 100 * (c : ℚ) /
        ((analyzeFile cfg info pr).Probe.Duration *
          (((analyzeFile cfg info pr).Probe.SampleRate *
            (analyzeFile cfg info pr).Probe.Channels : ℤ) : ℚ))) := by
  rcases h : mapLookup pr.astats "number_of_clipped_samples" with _ | v
  · constructor
    · simp [analyzeFile, h]
    · intro p c hp
      simp [analyzeFile, h] at hp
  · by_cases hc : 0 < info.Duration ∧ 0 < info.SampleRate ∧ 0 < info.Channels
    · constructor
      · simp [analyzeFile, h, hc]
      · intro p c hp hcs
        simp [analyzeFile, h, hc] at hp hcs
        subst hp
        simp [analyzeFile, hcs]
    · constructor
      · simp [analyzeFile, h, hc]
      · intro p c hp
        simp [analyzeFile, h, hc] at hp

/-- Probe info for the clip witness. -/
def piW2 : ProbeInfo :=
  { basePI with Duration := 10, SampleRate := 50000, Channels := 1 }

/-- Probe results for the clip witness: astats reported 100 clipped samples. -/
def prW2 : ProbeResults :=
  { basePR with astats := [("number_of_clipped_samples", 100)] }

/-- Witness for C2. -/
theorem c2_witness :
    (analyzeFile baseConfig piW2 prW2).Level.ClipPercent.isSome ∧
    ((1 : ℚ) / 50 = 100 * ((100 : ℤ) : ℚ) /
      ((analyzeFile baseConfig piW2 prW2).Probe.Duration *
        (((analyzeFile baseConfig piW2 prW2).Probe.SampleRate *
          (analyzeFile baseConfig piW2 prW2).Probe.Channels : ℤ) : ℚ))) := by
  have h := c2_clip_percent baseConfig piW2 prW2
  have hsamp : (analyzeFile baseConfig piW2 prW2).Level.ClipSamples = some 100 := by
    simp [analyzeFile, mapLookup, truncQ, prW2, basePR, piW2, basePI]
  have hperc : (analyzeFile baseConfig piW2 prW2).Level.ClipPercent = some (1 / 50) := by
    simp [analyzeFile, mapLookup, truncQ, prW2, basePR, piW2, basePI]
    norm_num
  refine ⟨by simp [hperc], h.2 (1 / 50) 100 hperc hsamp⟩


/-- Configuration with the aubio tempo engine enabled. -/
def cfgW3 : Config := { baseConfig with BPMEngine := "aubio" }

/-- Probe results in which the tempo probe parsed the series [3, 1, 2]. -/
def prW3 : ProbeResults := { basePR with tempoParsed := some [3, 1, 2] }

/-- C3: on the BPM series [3, 1, 2] the aggregator stores
`series[len(series)/2]` of the RAW, unsorted series as the "median" — here 1 —
whereas the middle element of the sorted series (the median the spec
describes, and the convention the sibling pitch path implements by sorting
first) is 2. -/
theorem c3_tempo_median_unsorted :
    ((analyzeFile cfgW3 basePI prW3).Tempo.bind (fun t => t.BPMMedian) = some 1) ∧
    (List.insertionSort (fun a b => a ≤ b) ([3, 1, 2] : List ℚ)).getD
      (([3, 1, 2] : List ℚ).length / 2) 0 = 2 ∧
    ((1 : ℚ) ≠ 2) := by
  refine ⟨?_, by norm_num [List.insertionSort, List.orderedInsert], by norm_num⟩
  simp [analyzeFile, cfgW3, baseConfig, prW3, basePR, aubioBPMSeries, aubioOnsetRate,
    basePI, strToLower]

/-- C6: `compare` includes a metric's delta (B − A) only when the metric is
present in both analyses: `bpm_median` is present iff both sides carry a
`TempoStats` with a BPM median, `lufs_integrated`/`lufs_range` are present iff
both sides carry `Loudness`; when present, the deltas are the B − A
differences (an absent metric is never defaulted to zero). -/
theorem c6_compare_presence (a b : Analysis) :
    ((mapLookup (compare a b).Delta "bpm_median").isSome ↔
      (a.Tempo.bind (fun t => t.BPMMedian)).isSome ∧
      (b.Tempo.bind (fun t => t.BPMMedian)).isSome) ∧
    ((mapLookup (compare a b).Delta "lufs_integrated").isSome ↔
      a.Loudness.isSome ∧ b.Loudness.isSome) ∧
    ((mapLookup (compare a b).Delta "lufs_range").isSome ↔
      a.Loudness.isSome ∧ b.Loudness.isSome) ∧
    (∀ ta tb ma mb, a.Tempo = some ta → b.Tempo = some tb →
      ta.BPMMedian = some ma → tb.BPMMedian = some mb →
      mapLookup (compare a b).Delta "bpm_median" = some (mb - ma)) ∧
    (∀ la lb, a.Loudness = some la → b.Loudness = some lb →
      mapLookup (compare a b).Delta "lufs_integrated" =
        some (lb.Integrated - la.Integrated) ∧
      mapLookup (compare a b).Delta "lufs_range" = some (lb.Range - la.Range)) := by
  rcases hA : a.Loudness with _ | la <;> rcases hB : b.Loudness with _ | lb <;>
    rcases hTA : a.Tempo with _ | ta <;> rcases hTB : b.Tempo with _ | tb <;>
    first
      | (rcases hMA : ta.BPMMedian with _ | ma <;> rcases hMB : tb.BPMMedian with _ | mb <;>
          simp_all [compare, mapLookup, List.find?])
      | simp_all [compare, mapLookup, List.find?]

/-- Diff input A for the C6 witness. -/
def aW6 : Analysis :=
  { baseAnalysis with
    Loudness := some ⟨-14, 5, none⟩
    Tempo := some ⟨some 100, none, none, 0, none⟩ }

/-- Diff input B for the C6 witness. -/
def bW6 : Analysis :=
  { baseAnalysis with
    Loudness := some ⟨-10, 4, none⟩
    Tempo := some ⟨some 120, none, none, 0, none⟩ }

/-- Witness for C6. -/
theorem c6_witness :
    mapLookup (compare aW6 bW6).Delta "bpm_median" = some 20 ∧
    mapLookup (compare aW6 bW6).Delta "lufs_integrated" = some 4 ∧
    mapLookup (compare aW6 bW6).Delta "lufs_range" = some (-1) := by
  obtain ⟨-, -, -, h4, h5⟩ := c6_compare_presence aW6 bW6
  have hm := h4 ⟨some 100, none, none, 0, none⟩ ⟨some 120, none, none, 0, none⟩
    100 120 rfl rfl rfl rfl
  have hl := h5 ⟨-14, 5, none⟩ ⟨-10, 4, none⟩ rfl rfl
  refine ⟨?_, ?_, ?_⟩
  · rw [hm]; norm_num
  · rw [hl.1]; norm_num
  · rw [hl.2]; norm_num

/-- Helper: the notes of an aggregated analysis are generated by `mkNotes` from
its own level/spectral/stereo fields. -/
theorem analyzeFile_notes (cfg : Config) (info : ProbeInfo) (pr : ProbeResults) :
    (analyzeFile cfg info pr).Notes =
      mkNotes (analyzeFile cfg info pr).Level (analyzeFile cfg info pr).Spectral
        (analyzeFile cfg info pr).Stereo := rfl

/-- C7: an analysis whose level stats carry clip count 100 and clip percent
0.02, true peak −0.5 dBTP, spectral flatness 0.7 and stereo correlation 0.1
yields exactly four notes, in the fixed priority order clipping (with the
percentage), true-peak-dangerously-high, noise-like-flatness, low-correlation;
and every rule whose referenced field is absent is skipped (all fields absent
⇒ no notes), never evaluated against a default. -/
theorem c7_note_rules :
    (∀ cfg info pr,
      (analyzeFile cfg info pr).Level.ClipSamples = some 100 →
      (analyzeFile cfg info pr).Level.ClipPercent = some (1 / 50) →
      (analyzeFile cfg info pr).Level.TruePeakDBTP = some (-1 / 2) →
      (analyzeFile cfg info pr).Spectral.Flatness = some (7 / 10) →
      (analyzeFile cfg info pr).Stereo.Correlation = some (1 / 10) →
      (analyzeFile cfg info pr).Notes =
        [NoteMsg.clippingDetected 100 (some (1 / 50)),
         NoteMsg.truePeakHigh (-1 / 2), NoteMsg.noiseLike,
         NoteMsg.lowCorrelation]) ∧
    (∀ cfg info pr,
      (analyzeFile cfg info pr).Level.ClipSamples = none →
      (analyzeFile cfg info pr).Level.TruePeakDBTP = none →
      (analyzeFile cfg info pr).Spectral.Flatness = none →
      (analyzeFile cfg info pr).Stereo.Correlation = none →
      (analyzeFile cfg info pr).Notes = []) := by
  constructor
  · intro cfg info pr h1 h2 h3 h4 h5
    rw [analyzeFile_notes, mkNotes, h1, h2, h3, h4, h5]
    norm_num
  · intro cfg info pr h1 h2 h3 h4
    rw [analyzeFile_notes, mkNotes, h1, h2, h3, h4]
    rfl

/-- Probe info for the note witness (makes the clip percentage come out 0.02). -/
def piW7 : ProbeInfo :=
  { basePI with Duration := 10, SampleRate := 50000, Channels := 1 }

/-- Probe results for the note witness: 100 clipped samples, true peak −0.5
dBTP (backfilled from ebur128), flatness 0.7, correlation 0.1. -/
def prW7 : ProbeResults :=
  { basePR with
    astats := [("number_of_clipped_samples", 100)]
    ebur128 := some ⟨-14, 5, some (-1 / 2)⟩
    spectral := ⟨none, none, some (7 / 10), none, none, none⟩
    stereo := ⟨0, 0, 0, some (1 / 10)⟩ }

/-- Configuration for the note witness: loudness probe enabled. -/
def cfgW7 : Config := { baseConfig with UseEBUR128 := true }

/-- Witness for C7. -/
theorem c7_witness :
    (analyzeFile cfgW7 piW7 prW7).Notes =
      [NoteMsg.clippingDetected 100 (some (1 / 50)),
       NoteMsg.truePeakHigh (-1 / 2), NoteMsg.noiseLike,
       NoteMsg.lowCorrelation] ∧
    (analyzeFile baseConfig basePI basePR).Notes = [] := by
  constructor
  · refine c7_note_rules.1 cfgW7 piW7 prW7 ?_ ?_ ?_ ?_ ?_
    · simp [analyzeFile, mapLookup, truncQ, prW7, basePR, piW7, basePI]
    · simp [analyzeFile, mapLookup, truncQ, prW7, basePR, piW7, basePI]
      norm_num
    · simp [analyzeFile, mapLookup, prW7, basePR, cfgW7, baseConfig]
    · rfl
    · rfl
  · exact c7_note_rules.2 baseConfig basePI basePR rfl rfl rfl rfl

/-- Helper: the MIDI formula at 440 Hz. -/
theorem hzToMIDI_440 : hzToMIDI 440 = 69 := by
  have h : ((440 : ℚ) : ℝ) / 440 = 1 := by norm_num
  rw [hzToMIDI, h, Real.logb_one]
  norm_num

/-- Helper: the MIDI formula at 55/8 Hz = 440·2⁻⁶ Hz gives exactly −3. -/
theorem hzToMIDI_55_8 : hzToMIDI (55 / 8) = -3 := by
  have h1 : (((55 : ℚ) / 8 : ℚ) : ℝ) / 440 = (2 : ℝ) ^ (-6 : ℤ) := by
    rw [zpow_neg]
    norm_num
  have h2 : Real.log 2 ≠ 0 := ne_of_gt (Real.log_pos (by norm_num))
  rw [hzToMIDI, h1, Real.logb, Real.log_zpow]
  field_simp
  ring

/-- Helper: Go rounding at 69. -/
theorem goRound_69 : goRound 69 = 69 := by
  rw [goRound, if_pos (by norm_num : (0:ℝ) ≤ 69)]
  rw [Int.floor_eq_iff]
  constructor <;> norm_num

/-- Helper: Go rounding at −3. -/
theorem goRound_neg3 : goRound (-3) = -3 := by
  rw [goRound, if_neg (by norm_num : ¬ (0:ℝ) ≤ -3)]
  rw [Int.ceil_eq_iff]
  constructor <;> norm_num

/-- Helper: the code's note naming agrees with the spec's floor-based naming
whenever the rounded MIDI number is nonnegative. -/
theorem midiToNoteName_eq_spec (m : ℤ) (hm : 0 ≤ m) :
    midiToNoteName m = specNoteName m := by
  have h1 : (m + 1200).tmod 12 = m % 12 := by
    rw [Int.tmod_eq_emod (by omega) (by norm_num)]
    omega
  have h2 : m.tdiv 12 = m.fdiv 12 := by
    rw [Int.tdiv_eq_ediv hm (by norm_num), Int.fdiv_eq_ediv _ (by norm_num)]
  rw [midiToNoteName, specNoteName, h1, h2]

/-- Helper: pitch stats of a singleton positive series. -/
theorem pitchStats_singleton (hz : ℚ) (hpos : 0 < hz) :
    aubioPitchStatsCore [hz] =
      { HzMedian := some hz, HzMean := some (mean [hz]), HzMin := some hz,
        HzMax := some hz, MIDIMedian := some (hzToMIDI hz),
        Note := some (midiToNoteName (goRound (hzToMIDI hz))) } := by
  simp [aubioPitchStatsCore, hpos, List.insertionSort]

/-- C8 counterexample: at the positive median pitch 55/8 Hz = 6.875 Hz the
rounded MIDI number is −3, and the code names the note "A-1" (octave from Go's
truncating division −3/12 = 0) while the claimed floor-based convention names
it "A-2" (floor(−3/12) = −1). -/
theorem c8_counterexample :
    (aubioPitchStatsCore [55 / 8]).Note = some "A-1" ∧
    specNoteName (goRound (hzToMIDI (55 / 8))) = "A-2" ∧
    ("A-1" : String) ≠ "A-2" := by
  have hp := pitchStats_singleton (55 / 8) (by norm_num)
  have hr : goRound (hzToMIDI (55 / 8)) = -3 := by rw [hzToMIDI_55_8]; exact goRound_neg3
  refine ⟨?_, ?_, by decide⟩
  · rw [hp]
    simp only [hr]
    rfl
  · rw [hr]
    rfl

/-- C8 amended: for every positive median pitch hz, the derived MIDI number
equals 69 + 12·log2(hz/440); and whenever the rounded MIDI number is ≥ 0
(every pitch above ≈ 8.18 Hz), the note name follows the claimed derivation —
rounding, mapping modulo 12 into the note table, octave floor(midi/12) − 1.
For negative rounded MIDI the code's octave uses truncation toward zero
instead of floor.  In particular 440 Hz yields MIDI 69 and note "A4". -/
theorem c8_amended (hz : ℚ) (hpos : 0 < hz)
    (hm : 0 ≤ goRound (hzToMIDI hz)) :
    (aubioPitchStatsCore [hz]).MIDIMedian =
      some (69 + 12 * Real.logb 2 ((hz : ℝ) / 440)) ∧
    (aubioPitchStatsCore [hz]).Note =
      some (specNoteName (goRound (69 + 12 * Real.logb 2 ((hz : ℝ) / 440)))) := by
  have hp := pitchStats_singleton hz hpos
  constructor
  · rw [hp]
    rfl
  · rw [hp]
    exact congrArg some (midiToNoteName_eq_spec _ hm)

/-- Witness for C8 at 440 Hz. -/
theorem c8_witness :
    (aubioPitchStatsCore [440]).MIDIMedian = some 69 ∧
    (aubioPitchStatsCore [440]).Note = some "A4" := by
  have hg : goRound (hzToMIDI 440) = 69 := by rw [hzToMIDI_440]; exact goRound_69
  have h := c8_amended 440 (by norm_num) (by rw [hg]; norm_num)
  constructor
  · rw [h.1]
    have h69 : (69 : ℝ) + 12 * Real.logb 2 (((440 : ℚ) : ℝ) / 440) = 69 := hzToMIDI_440
    rw [h69]
  · rw [h.2]
    have hg2 : goRound ((69 : ℝ) + 12 * Real.logb 2 (((440 : ℚ) : ℝ) / 440)) = 69 := hg
    rw [hg2]
    rfl

/-- Probe results in which the key tool ran but recognised no token. -/
def prW9 : ProbeResults := { basePR with keyAvail := true }

/-- C9 counterexample: when the key tool runs but recognises no key, scale or
confidence token, the analysis carries a PRESENT but fully-empty KeyInfo, not
an absent one. -/
theorem c9_counterexample :
    (analyzeFile baseConfig basePI prW9).Key = some ⟨none, none, none⟩ ∧
    (analyzeFile baseConfig basePI prW9).Key ≠ none := by
  constructor
  · rfl
  · intro h
    simp [analyzeFile, aubioKey, prW9, basePR] at h

/-- C9 amended: if the key tool is available but its output contains no
recognisable key, scale or confidence token, the analysis carries a present
but fully-empty KeyInfo; KeyInfo is entirely absent only when the tool itself
is unavailable. -/
theorem c9_amended (cfg : Config) (info : ProbeInfo) (pr : ProbeResults)
    (hav : pr.keyAvail = true) (hk : pr.keyTok = none) (hs : pr.scaleTok = none)
    (hc : pr.confTok = none) :
    (analyzeFile cfg info pr).Key = some ⟨none, none, none⟩ := by
  simp [analyzeFile, aubioKey, hav, hk, hs, hc]

/-- Witness for C9. -/
theorem c9_witness :
    (analyzeFile baseConfig basePI prW9).Key = some ⟨none, none, none⟩ :=
  c9_amended baseConfig basePI prW9 rfl rfl rfl rfl

/-- C10: for any two analyses whose crest fields satisfy crest = peak − RMS
(as the aggregator guarantees), the delta map of `compare` contains
peak_db, rms_db, crest_db, stereo_side_mid_db and duration_s, and
Delta[crest_db] = Delta[peak_db] − Delta[rms_db]. -/
theorem c10_crest_delta (a b : Analysis)
    (ha : a.Level.CrestDB = a.Level.PeakDB - a.Level.RMSDB)
    (hb : b.Level.CrestDB = b.Level.PeakDB - b.Level.RMSDB) :
    (mapLookup (compare a b).Delta "peak_db").isSome ∧
    (mapLookup (compare a b).Delta "rms_db").isSome ∧
    (mapLookup (compare a b).Delta "crest_db").isSome ∧
    (mapLookup (compare a b).Delta "stereo_side_mid_db").isSome ∧
    (mapLookup (compare a b).Delta "duration_s").isSome ∧
    mapLookup (compare a b).Delta "crest_db" =
      some ((mapLookup (compare a b).Delta "peak_db").getD 0 -
            (mapLookup (compare a b).Delta "rms_db").getD 0) := by
  have hp : mapLookup (compare a b).Delta "peak_db" =
      some (b.Level.PeakDB - a.Level.PeakDB) := rfl
  have hr : mapLookup (compare a b).Delta "rms_db" =
      some (b.Level.RMSDB - a.Level.RMSDB) := rfl
  have hcr : mapLookup (compare a b).Delta "crest_db" =
      some (b.Level.CrestDB - a.Level.CrestDB) := rfl
  have hst : mapLookup (compare a b).Delta "stereo_side_mid_db" =
      some (b.Stereo.SideMidRatioDB - a.Stereo.SideMidRatioDB) := rfl
  have hd : mapLookup (compare a b).Delta "duration_s" =
      some (b.Probe.Duration - a.Probe.Duration) := rfl
  refine ⟨by rw [hp]; rfl, by rw [hr]; rfl, by rw [hcr]; rfl,
    by rw [hst]; rfl, by rw [hd]; rfl, ?_⟩
  rw [hp, hr, hcr, ha, hb]
  simp only [Option.getD_some, Option.some.injEq]
  ring

/-- Diff input B for the C10 witness (peak −1, RMS −20, crest 19). -/
def bW10 : Analysis :=
  { baseAnalysis with Level := ⟨-1, -20, 19, none, 1, 0, 0, 0, none, none⟩ }

/-- Witness for C10. -/
theorem c10_witness :
    (mapLookup (compare baseAnalysis bW10).Delta "peak_db").isSome ∧
    (mapLookup (compare baseAnalysis bW10).Delta "rms_db").isSome ∧
    (mapLookup (compare baseAnalysis bW10).Delta "crest_db").isSome ∧
    (mapLookup (compare baseAnalysis bW10).Delta "stereo_side_mid_db").isSome ∧
    (mapLookup (compare baseAnalysis bW10).Delta "duration_s").isSome ∧
    mapLookup (compare baseAnalysis bW10).Delta "crest_db" =
      some ((mapLookup (compare baseAnalysis bW10).Delta "peak_db").getD 0 -
            (mapLookup (compare baseAnalysis bW10).Delta "rms_db").getD 0) :=
  c10_crest_delta baseAnalysis bW10
    (by simp [baseAnalysis, basePI])
    (by simp [bW10, baseAnalysis]; norm_num)

end GoHz
